import Mathlib

/-!
Shallow embedding of `language/move-vm/types/src/gas.rs`: the Move VM gas
metering contract (`GasMeter`), the fixed-cost instruction taxonomy
(`SimpleInstruction`), and the null policy (`UnmeteredGasMeter`).

Modelling conventions:
* Rust `&mut self` methods returning `PartialVMResult<()>` become functions
  from an explicit policy state `σ` to `σ × PartialVMResult Unit`.
* `impl ValueView` / `impl TypeView` parameters are opaque at this layer and
  become type parameters `V` / `T`.
* A Rust `ExactSizeIterator` argument becomes an `ExactSizeIter` value; since
  consuming such an iterator mutates it, operations that receive one also
  return its final state, so that consumption (or its absence) is observable.
* Gas quantities (`NumBytes`, `NumArgs`, `InternalGas`) are opaque `u64`
  newtype wrappers on which this file's code performs no arithmetic; they are
  embedded as `Nat`.
-/

namespace MoveGas

/-- Enum of instructions that do not need extra information for gas metering
(`SimpleInstruction` in gas.rs). -/
inductive SimpleInstruction where
  | Nop
  | Ret
  | BrTrue
  | BrFalse
  | Branch
  | Pop
  | LdU8
  | LdU16
  | LdU32
  | LdU64
  | LdU128
  | LdU256
  | LdTrue
  | LdFalse
  | FreezeRef
  | MutBorrowLoc
  | ImmBorrowLoc
  | ImmBorrowField
  | MutBorrowField
  | ImmBorrowFieldGeneric
  | MutBorrowFieldGeneric
  | CastU8
  | CastU16
  | CastU32
  | CastU64
  | CastU128
  | CastU256
  | Add
  | Sub
  | Mul
  | Mod
  | Div
  | BitOr
  | BitAnd
  | Xor
  | Shl
  | Shr
  | Or
  | And
  | Not
  | Lt
  | Gt
  | Le
  | Ge
  | Abort
  deriving DecidableEq

/-- Opaque module identifier (an account address plus a module name), external
to this layer (`move_core_types::language_storage::ModuleId`). -/
structure ModuleId where
  address : Nat
  name : String
  deriving DecidableEq

/-- Byte-count gas quantity (`NumBytes`), opaque at this layer. -/
abbrev NumBytes := Nat

/-- Argument-count gas quantity (`NumArgs`), opaque at this layer. -/
abbrev NumArgs := Nat

/-- Abstract internal gas quantity (`InternalGas`), opaque at this layer. -/
abbrev InternalGas := Nat

/-- The single error kind visible at this layer: a metering failure
(the `PartialVMError` payload is opaque here, kept as a bare code). -/
structure MeteringFailure where
  code : Nat
  deriving DecidableEq

/-- Result type of every charge operation (`PartialVMResult<()>` in the
source): success or a metering failure. -/
abbrev PartialVMResult (α : Type) := Except MeteringFailure α

/-- Model of a Rust `ExactSizeIterator`: the list of elements not yet
consumed. Its exact length is available (`len`) without consuming anything,
and elements are yielded one at a time by `next`. -/
structure ExactSizeIter (α : Type) where
  elems : List α
  deriving DecidableEq

/-- Exact number of elements the iterator can still yield; reading it does not
consume anything (Rust `ExactSizeIterator::len`, which takes `&self`). -/
def ExactSizeIter.len (it : ExactSizeIter α) : Nat :=
  it.elems.length

/-- Yield the next element, if any, together with the advanced iterator
(Rust `Iterator::next`). -/
def ExactSizeIter.next : ExactSizeIter α → Option α × ExactSizeIter α
  | ⟨[]⟩ => (none, ⟨[]⟩)
  | ⟨x :: xs⟩ => (some x, ⟨xs⟩)

/-- Build an iterator over the elements of a list. -/
def ExactSizeIter.ofList (xs : List α) : ExactSizeIter α :=
  ⟨xs⟩

/-- The gas meter contract (`trait GasMeter` in gas.rs): one charge operation
per category of chargeable step. A policy owns a state `σ`; every operation
maps the current state and the operation's parameters to an updated state and
a `PartialVMResult Unit`, returning any received iterators in their final
states. `V` embeds `impl ValueView`, `T` embeds `impl TypeView`. -/
structure GasMeter (σ V T : Type) where
  charge_simple_instr : σ → SimpleInstruction → σ × PartialVMResult Unit
  charge_call : σ → ModuleId → String → ExactSizeIter V →
    σ × ExactSizeIter V × PartialVMResult Unit
  charge_call_generic : σ → ModuleId → String → ExactSizeIter T →
    ExactSizeIter V → σ × ExactSizeIter T × ExactSizeIter V × PartialVMResult Unit
  charge_ld_const : σ → NumBytes → σ × PartialVMResult Unit
  charge_copy_loc : σ → V → σ × PartialVMResult Unit
  charge_move_loc : σ → V → σ × PartialVMResult Unit
  charge_store_loc : σ → V → σ × PartialVMResult Unit
  charge_pack : σ → Bool → ExactSizeIter V → σ × ExactSizeIter V × PartialVMResult Unit
  charge_unpack : σ → Bool → ExactSizeIter V → σ × ExactSizeIter V × PartialVMResult Unit
  charge_read_ref : σ → V → σ × PartialVMResult Unit
  charge_write_ref : σ → V → σ × PartialVMResult Unit
  charge_eq : σ → V → V → σ × PartialVMResult Unit
  charge_neq : σ → V → V → σ × PartialVMResult Unit
  charge_borrow_global : σ → Bool → Bool → T → Bool → σ × PartialVMResult Unit
  charge_exists : σ → Bool → T → Bool → σ × PartialVMResult Unit
  charge_move_from : σ → Bool → T → Option V → σ × PartialVMResult Unit
  charge_move_to : σ → Bool → T → V → Bool → σ × PartialVMResult Unit
  charge_vec_pack : σ → T → ExactSizeIter V → σ × ExactSizeIter V × PartialVMResult Unit
  charge_vec_len : σ → T → σ × PartialVMResult Unit
  charge_vec_borrow : σ → Bool → T → Bool → σ × PartialVMResult Unit
  charge_vec_push_back : σ → T → V → σ × PartialVMResult Unit
  charge_vec_pop_back : σ → T → Option V → σ × PartialVMResult Unit
  charge_vec_unpack : σ → T → NumArgs → σ × PartialVMResult Unit
  charge_vec_swap : σ → T → σ × PartialVMResult Unit
  charge_load_resource : σ → Option NumBytes → σ × PartialVMResult Unit
  charge_native_function : σ → InternalGas → σ × PartialVMResult Unit

/-- The null policy (`UnmeteredGasMeter` in gas.rs): a dummy gas meter that
does not meter anything. Its Rust struct has no fields, embedded as state
`Unit`; every operation's body is `Ok(())`: the state is untouched, received
iterators are never advanced, and the result is always success. -/
def UnmeteredGasMeter (V T : Type) : GasMeter Unit V T where
  charge_simple_instr := fun s _ => (s, Except.ok ())
  charge_call := fun s _ _ args => (s, args, Except.ok ())
  charge_call_generic := fun s _ _ ty_args args => (s, ty_args, args, Except.ok ())
  charge_ld_const := fun s _ => (s, Except.ok ())
  charge_copy_loc := fun s _ => (s, Except.ok ())
  charge_move_loc := fun s _ => (s, Except.ok ())
  charge_store_loc := fun s _ => (s, Except.ok ())
  charge_pack := fun s _ args => (s, args, Except.ok ())
  charge_unpack := fun s _ args => (s, args, Except.ok ())
  charge_read_ref := fun s _ => (s, Except.ok ())
  charge_write_ref := fun s _ => (s, Except.ok ())
  charge_eq := fun s _ _ => (s, Except.ok ())
  charge_neq := fun s _ _ => (s, Except.ok ())
  charge_borrow_global := fun s _ _ _ _ => (s, Except.ok ())
  charge_exists := fun s _ _ _ => (s, Except.ok ())
  charge_move_from := fun s _ _ _ => (s, Except.ok ())
  charge_move_to := fun s _ _ _ _ => (s, Except.ok ())
  charge_vec_pack := fun s _ args => (s, args, Except.ok ())
  charge_vec_len := fun s _ => (s, Except.ok ())
  charge_vec_borrow := fun s _ _ _ => (s, Except.ok ())
  charge_vec_push_back := fun s _ _ => (s, Except.ok ())
  charge_vec_pop_back := fun s _ _ => (s, Except.ok ())
  charge_vec_unpack := fun s _ _ => (s, Except.ok ())
  charge_vec_swap := fun s _ => (s, Except.ok ())
  charge_load_resource := fun s _ => (s, Except.ok ())
  charge_native_function := fun s _ => (s, Except.ok ())

/-- The event a charge operation delivers to the implementing policy: one
constructor per contract operation, carrying exactly the parameters that
operation passes (for iterator parameters, the length the policy may read
without consuming). The spec describes the contract as defining exactly this
event stream. -/
inductive GasEvent (V T : Type) where
  | simpleInstr (instr : SimpleInstruction)
  | call (module_id : ModuleId) (func_name : String) (num_args : Nat)
  | callGeneric (module_id : ModuleId) (func_name : String) (num_ty_args num_args : Nat)
  | ldConst (size : NumBytes)
  | copyLoc (val : V)
  | moveLoc (val : V)
  | storeLoc (val : V)
  | pack (is_generic : Bool) (num_args : Nat)
  | unpack (is_generic : Bool) (num_args : Nat)
  | readRef (val : V)
  | writeRef (val : V)
  | eqCmp (lhs rhs : V)
  | neqCmp (lhs rhs : V)
  | borrowGlobal (is_mut is_generic : Bool) (ty : T) (is_success : Bool)
  | existsCheck (is_generic : Bool) (ty : T) (res_exists : Bool)
  | moveFrom (is_generic : Bool) (ty : T) (val : Option V)
  | moveTo (is_generic : Bool) (ty : T) (val : V) (is_success : Bool)
  | vecPack (ty : T) (num_args : Nat)
  | vecLen (ty : T)
  | vecBorrow (is_mut : Bool) (ty : T) (is_success : Bool)
  | vecPushBack (ty : T) (val : V)
  | vecPopBack (ty : T) (val : Option V)
  | vecUnpack (ty : T) (expect_num_elements : NumArgs)
  | vecSwap (ty : T)
  | loadResource (loaded : Option NumBytes)
  | nativeFunction (amount : InternalGas)

/-- Whether the event comes from one of the four global-resource charge
operations (`charge_borrow_global`, `charge_exists`, `charge_move_from`,
`charge_move_to`). -/
def GasEvent.isGlobalResourceOp : GasEvent V T → Bool
  | .borrowGlobal _ _ _ _ => true
  | .existsCheck _ _ _ => true
  | .moveFrom _ _ _ => true
  | .moveTo _ _ _ _ => true
  | _ => false

/-- The value descriptor a global-resource charge operation hands to the
policy, if any: `charge_borrow_global` and `charge_exists` pass none,
`charge_move_from` passes its `Option` value parameter, and `charge_move_to`
passes its value parameter unconditionally. -/
def GasEvent.valDescr : GasEvent V T → Option V
  | .moveFrom _ _ v => v
  | .moveTo _ _ v _ => some v
  | _ => none

/-- The success/existence outcome a global-resource charge operation hands to
the policy: `is_success` for `charge_borrow_global` and `charge_move_to`,
`exists` for `charge_exists`, and for `charge_move_from` the presence of its
optional value, which is its only outcome signal. -/
def GasEvent.outcomeFlag : GasEvent V T → Option Bool
  | .borrowGlobal _ _ _ ok => some ok
  | .existsCheck _ _ ex => some ex
  | .moveFrom _ _ v => some v.isSome
  | .moveTo _ _ _ ok => some ok
  | _ => none

/-- Literal reading of the claim that every global-resource charge operation
carries an optional value descriptor that is present only when the
operation's outcome was success (a value was actually produced or consumed). -/
def globalValueOnlyOnSuccess (V T : Type) : Prop :=
  ∀ e : GasEvent V T, e.isGlobalResourceOp = true →
    e.valDescr.isSome = true → e.outcomeFlag = some true

/-- A policy instance that records every charge it receives as a `GasEvent`,
most recent first, and always succeeds. It reads iterator lengths without
advancing the iterators. It materialises, inside the contract's type, which
distinctions of inputs a policy can observe. -/
def TracingGasMeter (V T : Type) : GasMeter (List (GasEvent V T)) V T where
  charge_simple_instr := fun s instr => (.simpleInstr instr :: s, Except.ok ())
  charge_call := fun s m f args => (.call m f args.len :: s, args, Except.ok ())
  charge_call_generic := fun s m f ty_args args =>
    (.callGeneric m f ty_args.len args.len :: s, ty_args, args, Except.ok ())
  charge_ld_const := fun s size => (.ldConst size :: s, Except.ok ())
  charge_copy_loc := fun s v => (.copyLoc v :: s, Except.ok ())
  charge_move_loc := fun s v => (.moveLoc v :: s, Except.ok ())
  charge_store_loc := fun s v => (.storeLoc v :: s, Except.ok ())
  charge_pack := fun s g args => (.pack g args.len :: s, args, Except.ok ())
  charge_unpack := fun s g args => (.unpack g args.len :: s, args, Except.ok ())
  charge_read_ref := fun s v => (.readRef v :: s, Except.ok ())
  charge_write_ref := fun s v => (.writeRef v :: s, Except.ok ())
  charge_eq := fun s lhs rhs => (.eqCmp lhs rhs :: s, Except.ok ())
  charge_neq := fun s lhs rhs => (.neqCmp lhs rhs :: s, Except.ok ())
  charge_borrow_global := fun s is_mut g ty ok =>
    (.borrowGlobal is_mut g ty ok :: s, Except.ok ())
  charge_exists := fun s g ty ex => (.existsCheck g ty ex :: s, Except.ok ())
  charge_move_from := fun s g ty v => (.moveFrom g ty v :: s, Except.ok ())
  charge_move_to := fun s g ty v ok => (.moveTo g ty v ok :: s, Except.ok ())
  charge_vec_pack := fun s ty args => (.vecPack ty args.len :: s, args, Except.ok ())
  charge_vec_len := fun s ty => (.vecLen ty :: s, Except.ok ())
  charge_vec_borrow := fun s is_mut ty ok => (.vecBorrow is_mut ty ok :: s, Except.ok ())
  charge_vec_push_back := fun s ty v => (.vecPushBack ty v :: s, Except.ok ())
  charge_vec_pop_back := fun s ty v => (.vecPopBack ty v :: s, Except.ok ())
  charge_vec_unpack := fun s ty n => (.vecUnpack ty n :: s, Except.ok ())
  charge_vec_swap := fun s ty => (.vecSwap ty :: s, Except.ok ())
  charge_load_resource := fun s loaded => (.loadResource loaded :: s, Except.ok ())
  charge_native_function := fun s amount => (.nativeFunction amount :: s, Except.ok ())

/-- Modelled from the spec: the null policy as §4.2 describes it — the exact
method surface of the contract, every operation unconditionally succeeding,
with no observable side effect and no argument inspection. Written out
operation by operation, to be compared with `UnmeteredGasMeter`. -/
def NullPolicySpec (V T : Type) : GasMeter Unit V T where
  charge_simple_instr := fun s _ => (s, Except.ok ())
  charge_call := fun s _ _ args => (s, args, Except.ok ())
  charge_call_generic := fun s _ _ ty_args args => (s, ty_args, args, Except.ok ())
  charge_ld_const := fun s _ => (s, Except.ok ())
  charge_copy_loc := fun s _ => (s, Except.ok ())
  charge_move_loc := fun s _ => (s, Except.ok ())
  charge_store_loc := fun s _ => (s, Except.ok ())
  charge_pack := fun s _ args => (s, args, Except.ok ())
  charge_unpack := fun s _ args => (s, args, Except.ok ())
  charge_read_ref := fun s _ => (s, Except.ok ())
  charge_write_ref := fun s _ => (s, Except.ok ())
  charge_eq := fun s _ _ => (s, Except.ok ())
  charge_neq := fun s _ _ => (s, Except.ok ())
  charge_borrow_global := fun s _ _ _ _ => (s, Except.ok ())
  charge_exists := fun s _ _ _ => (s, Except.ok ())
  charge_move_from := fun s _ _ _ => (s, Except.ok ())
  charge_move_to := fun s _ _ _ _ => (s, Except.ok ())
  charge_vec_pack := fun s _ args => (s, args, Except.ok ())
  charge_vec_len := fun s _ => (s, Except.ok ())
  charge_vec_borrow := fun s _ _ _ => (s, Except.ok ())
  charge_vec_push_back := fun s _ _ => (s, Except.ok ())
  charge_vec_pop_back := fun s _ _ => (s, Except.ok ())
  charge_vec_unpack := fun s _ _ => (s, Except.ok ())
  charge_vec_swap := fun s _ => (s, Except.ok ())
  charge_load_resource := fun s _ => (s, Except.ok ())
  charge_native_function := fun s _ => (s, Except.ok ())

/-- All 45 variants of `SimpleInstruction`, in source order. -/
def allSimpleInstructions : List SimpleInstruction :=
  [.Nop, .Ret,
   .BrTrue, .BrFalse, .Branch,
   .Pop, .LdU8, .LdU16, .LdU32, .LdU64, .LdU128, .LdU256, .LdTrue, .LdFalse,
   .FreezeRef, .MutBorrowLoc, .ImmBorrowLoc, .ImmBorrowField, .MutBorrowField,
   .ImmBorrowFieldGeneric, .MutBorrowFieldGeneric,
   .CastU8, .CastU16, .CastU32, .CastU64, .CastU128, .CastU256,
   .Add, .Sub, .Mul, .Mod, .Div,
   .BitOr, .BitAnd, .Xor, .Shl, .Shr,
   .Or, .And, .Not,
   .Lt, .Gt, .Le, .Ge,
   .Abort]

/-- Case analysis on a charge result: success carrying unit, or a metering
failure — no third shape exists. -/
theorem vmresult_cases (r : PartialVMResult Unit) :
    r = Except.ok () ∨ ∃ e : MeteringFailure, r = Except.error e := by
  cases r with
  | ok u => cases u; exact Or.inl rfl
  | error e => exact Or.inr ⟨e, rfl⟩

/-- C1: for every operation of the gas-metering contract and every possible
input, invoking `UnmeteredGasMeter` returns success, leaves the policy state
unchanged, and never produces a `MeteringFailure`. -/
theorem unmetered_charges_always_succeed (V T : Type) (s : Unit) :
    (∀ instr, (UnmeteredGasMeter V T).charge_simple_instr s instr = (s, Except.ok ())) ∧
    (∀ m f args, (UnmeteredGasMeter V T).charge_call s m f args = (s, args, Except.ok ())) ∧
    (∀ m f ty_args args, (UnmeteredGasMeter V T).charge_call_generic s m f ty_args args
       = (s, ty_args, args, Except.ok ())) ∧
    (∀ size, (UnmeteredGasMeter V T).charge_ld_const s size = (s, Except.ok ())) ∧
    (∀ v, (UnmeteredGasMeter V T).charge_copy_loc s v = (s, Except.ok ())) ∧
    (∀ v, (UnmeteredGasMeter V T).charge_move_loc s v = (s, Except.ok ())) ∧
    (∀ v, (UnmeteredGasMeter V T).charge_store_loc s v = (s, Except.ok ())) ∧
    (∀ g args, (UnmeteredGasMeter V T).charge_pack s g args = (s, args, Except.ok ())) ∧
    (∀ g args, (UnmeteredGasMeter V T).charge_unpack s g args = (s, args, Except.ok ())) ∧
    (∀ v, (UnmeteredGasMeter V T).charge_read_ref s v = (s, Except.ok ())) ∧
    (∀ v, (UnmeteredGasMeter V T).charge_write_ref s v = (s, Except.ok ())) ∧
    (∀ lhs rhs, (UnmeteredGasMeter V T).charge_eq s lhs rhs = (s, Except.ok ())) ∧
    (∀ lhs rhs, (UnmeteredGasMeter V T).charge_neq s lhs rhs = (s, Except.ok ())) ∧
    (∀ is_mut g ty ok, (UnmeteredGasMeter V T).charge_borrow_global s is_mut g ty ok
       = (s, Except.ok ())) ∧
    (∀ g ty ex, (UnmeteredGasMeter V T).charge_exists s g ty ex = (s, Except.ok ())) ∧
    (∀ g ty ov, (UnmeteredGasMeter V T).charge_move_from s g ty ov = (s, Except.ok ())) ∧
    (∀ g ty v ok, (UnmeteredGasMeter V T).charge_move_to s g ty v ok = (s, Except.ok ())) ∧
    (∀ ty args, (UnmeteredGasMeter V T).charge_vec_pack s ty args = (s, args, Except.ok ())) ∧
    (∀ ty, (UnmeteredGasMeter V T).charge_vec_len s ty = (s, Except.ok ())) ∧
    (∀ is_mut ty ok, (UnmeteredGasMeter V T).charge_vec_borrow s is_mut ty ok
       = (s, Except.ok ())) ∧
    (∀ ty v, (UnmeteredGasMeter V T).charge_vec_push_back s ty v = (s, Except.ok ())) ∧
    (∀ ty ov, (UnmeteredGasMeter V T).charge_vec_pop_back s ty ov = (s, Except.ok ())) ∧
    (∀ ty n, (UnmeteredGasMeter V T).charge_vec_unpack s ty n = (s, Except.ok ())) ∧
    (∀ ty, (UnmeteredGasMeter V T).charge_vec_swap s ty = (s, Except.ok ())) ∧
    (∀ loaded, (UnmeteredGasMeter V T).charge_load_resource s loaded = (s, Except.ok ())) ∧
    (∀ amount, (UnmeteredGasMeter V T).charge_native_function s amount = (s, Except.ok ())) := by
  and_intros <;> intros <;> rfl

/-- C2: every charge operation of any gas meter implementing the contract
returns exactly one of two outcomes — success carrying unit, or a
`MeteringFailure`; there is no third outcome and the error type is the same
for every operation. -/
theorem charge_outcome_dichotomy (σ V T : Type) (G : GasMeter σ V T) (s : σ) :
    (∀ instr, (G.charge_simple_instr s instr).2 = Except.ok ()
       ∨ ∃ e, (G.charge_simple_instr s instr).2 = Except.error e) ∧
    (∀ m f args, (G.charge_call s m f args).2.2 = Except.ok ()
       ∨ ∃ e, (G.charge_call s m f args).2.2 = Except.error e) ∧
    (∀ m f ty_args args, (G.charge_call_generic s m f ty_args args).2.2.2 = Except.ok ()
       ∨ ∃ e, (G.charge_call_generic s m f ty_args args).2.2.2 = Except.error e) ∧
    (∀ size, (G.charge_ld_const s size).2 = Except.ok ()
       ∨ ∃ e, (G.charge_ld_const s size).2 = Except.error e) ∧
    (∀ v, (G.charge_copy_loc s v).2 = Except.ok ()
       ∨ ∃ e, (G.charge_copy_loc s v).2 = Except.error e) ∧
    (∀ v, (G.charge_move_loc s v).2 = Except.ok ()
       ∨ ∃ e, (G.charge_move_loc s v).2 = Except.error e) ∧
    (∀ v, (G.charge_store_loc s v).2 = Except.ok ()
       ∨ ∃ e, (G.charge_store_loc s v).2 = Except.error e) ∧
    (∀ g args, (G.charge_pack s g args).2.2 = Except.ok ()
       ∨ ∃ e, (G.charge_pack s g args).2.2 = Except.error e) ∧
    (∀ g args, (G.charge_unpack s g args).2.2 = Except.ok ()
       ∨ ∃ e, (G.charge_unpack s g args).2.2 = Except.error e) ∧
    (∀ v, (G.charge_read_ref s v).2 = Except.ok ()
       ∨ ∃ e, (G.charge_read_ref s v).2 = Except.error e) ∧
    (∀ v, (G.charge_write_ref s v).2 = Except.ok ()
       ∨ ∃ e, (G.charge_write_ref s v).2 = Except.error e) ∧
    (∀ lhs rhs, (G.charge_eq s lhs rhs).2 = Except.ok ()
       ∨ ∃ e, (G.charge_eq s lhs rhs).2 = Except.error e) ∧
    (∀ lhs rhs, (G.charge_neq s lhs rhs).2 = Except.ok ()
       ∨ ∃ e, (G.charge_neq s lhs rhs).2 = Except.error e) ∧
    (∀ is_mut g ty ok, (G.charge_borrow_global s is_mut g ty ok).2 = Except.ok ()
       ∨ ∃ e, (G.charge_borrow_global s is_mut g ty ok).2 = Except.error e) ∧
    (∀ g ty ex, (G.charge_exists s g ty ex).2 = Except.ok ()
       ∨ ∃ e, (G.charge_exists s g ty ex).2 = Except.error e) ∧
    (∀ g ty ov, (G.charge_move_from s g ty ov).2 = Except.ok ()
       ∨ ∃ e, (G.charge_move_from s g ty ov).2 = Except.error e) ∧
    (∀ g ty v ok, (G.charge_move_to s g ty v ok).2 = Except.ok ()
       ∨ ∃ e, (G.charge_move_to s g ty v ok).2 = Except.error e) ∧
    (∀ ty args, (G.charge_vec_pack s ty args).2.2 = Except.ok ()
       ∨ ∃ e, (G.charge_vec_pack s ty args).2.2 = Except.error e) ∧
    (∀ ty, (G.charge_vec_len s ty).2 = Except.ok ()
       ∨ ∃ e, (G.charge_vec_len s ty).2 = Except.error e) ∧
    (∀ is_mut ty ok, (G.charge_vec_borrow s is_mut ty ok).2 = Except.ok ()
       ∨ ∃ e, (G.charge_vec_borrow s is_mut ty ok).2 = Except.error e) ∧
    (∀ ty v, (G.charge_vec_push_back s ty v).2 = Except.ok ()
       ∨ ∃ e, (G.charge_vec_push_back s ty v).2 = Except.error e) ∧
    (∀ ty ov, (G.charge_vec_pop_back s ty ov).2 = Except.ok ()
       ∨ ∃ e, (G.charge_vec_pop_back s ty ov).2 = Except.error e) ∧
    (∀ ty n, (G.charge_vec_unpack s ty n).2 = Except.ok ()
       ∨ ∃ e, (G.charge_vec_unpack s ty n).2 = Except.error e) ∧
    (∀ ty, (G.charge_vec_swap s ty).2 = Except.ok ()
       ∨ ∃ e, (G.charge_vec_swap s ty).2 = Except.error e) ∧
    (∀ loaded, (G.charge_load_resource s loaded).2 = Except.ok ()
       ∨ ∃ e, (G.charge_load_resource s loaded).2 = Except.error e) ∧
    (∀ amount, (G.charge_native_function s amount).2 = Except.ok ()
       ∨ ∃ e, (G.charge_native_function s amount).2 = Except.error e) := by
  and_intros <;> intros <;> exact vmresult_cases _

/-- C3 counterexample: the claim that each global-resource charge operation
carries an optional value descriptor present only when the outcome was
success fails on `charge_move_to`: a failed move-to (is_success = false)
still hands the policy its full value descriptor. -/
theorem global_value_descriptor_claim_refuted :
    ¬ globalValueOnlyOnSuccess Nat Nat := by
  intro h
  have hc := h (GasEvent.moveTo false (0 : Nat) (0 : Nat) false) rfl rfl
  simp [GasEvent.outcomeFlag] at hc

/-- C3 amended: each global-resource charge operation receives a generic flag,
a type descriptor and a runtime-decided outcome, and outcomes for otherwise
identical arguments are distinct inputs to the policy; but the value
descriptor differs per operation — `charge_borrow_global` and `charge_exists`
carry none, `charge_move_from` carries an optional one present exactly when
the resource was found (its only outcome signal), and `charge_move_to`
carries a mandatory one even on failure, with a separate success flag. -/
theorem global_resource_charge_inputs (V T : Type) (g : Bool) (ty : T) (v : V)
    (s : List (GasEvent V T)) :
    (∀ is_mut ok, (GasEvent.borrowGlobal is_mut g ty ok : GasEvent V T).valDescr = none
       ∧ (GasEvent.borrowGlobal is_mut g ty ok : GasEvent V T).outcomeFlag = some ok) ∧
    (∀ ex, (GasEvent.existsCheck g ty ex : GasEvent V T).valDescr = none
       ∧ (GasEvent.existsCheck g ty ex : GasEvent V T).outcomeFlag = some ex) ∧
    (∀ ov : Option V, (GasEvent.moveFrom g ty ov).valDescr = ov
       ∧ (GasEvent.moveFrom g ty ov).outcomeFlag = some ov.isSome) ∧
    (∀ ok, (GasEvent.moveTo g ty v ok).valDescr = some v
       ∧ (GasEvent.moveTo g ty v ok).outcomeFlag = some ok) ∧
    (∀ is_mut, ((TracingGasMeter V T).charge_borrow_global s is_mut g ty true).1
       ≠ ((TracingGasMeter V T).charge_borrow_global s is_mut g ty false).1) ∧
    (((TracingGasMeter V T).charge_exists s g ty true).1
       ≠ ((TracingGasMeter V T).charge_exists s g ty false).1) ∧
    (((TracingGasMeter V T).charge_move_from s g ty (some v)).1
       ≠ ((TracingGasMeter V T).charge_move_from s g ty none).1) ∧
    (((TracingGasMeter V T).charge_move_to s g ty v true).1
       ≠ ((TracingGasMeter V T).charge_move_to s g ty v false).1) := by
  and_intros <;> intros <;>
    simp [TracingGasMeter, GasEvent.valDescr, GasEvent.outcomeFlag]

/-- C4: the resource-load byte count and the vector-pop value are passed as
explicit presence/absence wrappers, so that a present zero payload is a
distinct policy input from absence, and the null policy accepts both. -/
theorem optional_payload_wrappers (V T : Type) (u : Unit) (ty : T) (v : V)
    (s : List (GasEvent V T)) :
    ((UnmeteredGasMeter V T).charge_load_resource u (some 0) = (u, Except.ok ())) ∧
    ((UnmeteredGasMeter V T).charge_load_resource u none = (u, Except.ok ())) ∧
    ((UnmeteredGasMeter V T).charge_vec_pop_back u ty (some v) = (u, Except.ok ())) ∧
    ((UnmeteredGasMeter V T).charge_vec_pop_back u ty none = (u, Except.ok ())) ∧
    (((TracingGasMeter V T).charge_load_resource s (some 0)).1
       ≠ ((TracingGasMeter V T).charge_load_resource s none).1) ∧
    (((TracingGasMeter V T).charge_vec_pop_back s ty (some v)).1
       ≠ ((TracingGasMeter V T).charge_vec_pop_back s ty none).1) := by
  and_intros <;> simp [UnmeteredGasMeter, TracingGasMeter]

/-- C5: `SimpleInstruction` is a closed enumeration of exactly 45 payload-free
tags (covering arithmetic, comparisons, casts, stack manipulation, local
borrows, branches, no-op, return, and abort), and `charge_simple_instr` hands
the policy the instruction tag and nothing else. -/
theorem simple_instruction_closed_enum :
    (∀ i : SimpleInstruction, i ∈ allSimpleInstructions) ∧
    allSimpleInstructions.Nodup ∧
    allSimpleInstructions.length = 45 ∧
    (∀ (V T : Type) (s : List (GasEvent V T)) (i : SimpleInstruction),
       (TracingGasMeter V T).charge_simple_instr s i
         = (GasEvent.simpleInstr i :: s, Except.ok ())) := by
  refine ⟨?_, by decide, rfl, ?_⟩
  · intro i
    cases i <;> decide
  · intros
    rfl

/-- C6: the argument and type-argument sequences of the call charge
operations are finite sequences of known length consumed lazily one element
at a time, and the exact length is available to the policy before any element
is consumed — the tracing policy records the length while returning the
iterators unconsumed. -/
theorem call_sequences_exact_size_lazy (V T : Type) (m : ModuleId) (f : String)
    (s : List (GasEvent V T)) :
    (∀ xs : List V, (ExactSizeIter.ofList xs).len = xs.length) ∧
    (∀ (x : V) (xs : List V),
       (ExactSizeIter.ofList (x :: xs)).next = (some x, ExactSizeIter.ofList xs)) ∧
    ((ExactSizeIter.ofList ([] : List V)).next = (none, ExactSizeIter.ofList [])) ∧
    (∀ (x : V) (xs : List V),
       (ExactSizeIter.ofList (x :: xs)).len = (ExactSizeIter.ofList xs).len + 1) ∧
    (∀ xs : List V, (TracingGasMeter V T).charge_call s m f (ExactSizeIter.ofList xs)
       = (GasEvent.call m f xs.length :: s, ExactSizeIter.ofList xs, Except.ok ())) ∧
    (∀ (txs : List T) (xs : List V),
       (TracingGasMeter V T).charge_call_generic s m f
           (ExactSizeIter.ofList txs) (ExactSizeIter.ofList xs)
         = (GasEvent.callGeneric m f txs.length xs.length :: s,
            ExactSizeIter.ofList txs, ExactSizeIter.ofList xs, Except.ok ())) := by
  and_intros <;> intros <;> rfl

/-- C7: the null policy provides exactly the operation set of the contract —
it coincides, operation for operation, with the spec-side null policy written
out over the full method surface, at the contract's type, so it is
substitutable for any real policy without caller changes. -/
theorem unmetered_matches_contract_surface (V T : Type) :
    UnmeteredGasMeter V T = NullPolicySpec V T :=
  rfl

/-- C8: a null-policy charge operation that receives a lazy argument or
type-argument sequence (`charge_call`, `charge_call_generic`, `charge_pack`,
`charge_unpack`, `charge_vec_pack`) returns it with no element consumed. -/
theorem unmetered_does_not_consume_sequences (V T : Type) (u : Unit) (m : ModuleId)
    (f : String) (g : Bool) (ty : T) (ty_args : ExactSizeIter T)
    (args : ExactSizeIter V) :
    (((UnmeteredGasMeter V T).charge_call u m f args).2.1 = args) ∧
    (((UnmeteredGasMeter V T).charge_call_generic u m f ty_args args).2.1 = ty_args) ∧
    (((UnmeteredGasMeter V T).charge_call_generic u m f ty_args args).2.2.1 = args) ∧
    (((UnmeteredGasMeter V T).charge_pack u g args).2.1 = args) ∧
    (((UnmeteredGasMeter V T).charge_unpack u g args).2.1 = args) ∧
    (((UnmeteredGasMeter V T).charge_vec_pack u ty args).2.1 = args) :=
  ⟨rfl, rfl, rfl, rfl, rfl, rfl⟩

/-- C9: `charge_borrow_global` and `charge_vec_borrow` receive an `is_mut`
flag a policy may observe as a distinct input (the tracing policy records
different events for mutable and immutable borrows), while the null policy's
result does not depend on it. -/
theorem borrow_charges_carry_is_mut (V T : Type) (u : Unit) (g : Bool) (ty : T)
    (ok : Bool) (s : List (GasEvent V T)) :
    ((UnmeteredGasMeter V T).charge_borrow_global u true g ty ok
       = (UnmeteredGasMeter V T).charge_borrow_global u false g ty ok) ∧
    ((UnmeteredGasMeter V T).charge_borrow_global u true g ty ok = (u, Except.ok ())) ∧
    ((UnmeteredGasMeter V T).charge_vec_borrow u true ty ok
       = (UnmeteredGasMeter V T).charge_vec_borrow u false ty ok) ∧
    ((UnmeteredGasMeter V T).charge_vec_borrow u true ty ok = (u, Except.ok ())) ∧
    (((TracingGasMeter V T).charge_borrow_global s true g ty ok).1
       ≠ ((TracingGasMeter V T).charge_borrow_global s false g ty ok).1) ∧
    (((TracingGasMeter V T).charge_vec_borrow s true ty ok).1
       ≠ ((TracingGasMeter V T).charge_vec_borrow s false ty ok).1) := by
  and_intros <;> simp [UnmeteredGasMeter, TracingGasMeter]

/-- C10: `charge_move_to` hands the policy its full value descriptor
unconditionally together with a separate success flag — the value is supplied
even for a failed move-to — whereas a `charge_move_from` event consists of
exactly the generic flag, the type and the optional value, whose presence is
its only outcome signal. -/
theorem move_to_value_always_supplied (V T : Type) (g : Bool) (ty : T) (v : V)
    (s : List (GasEvent V T)) :
    ((GasEvent.moveTo g ty v false).valDescr = some v) ∧
    ((GasEvent.moveTo g ty v true).valDescr = some v) ∧
    ((GasEvent.moveTo g ty v false).outcomeFlag = some false) ∧
    ((TracingGasMeter V T).charge_move_to s g ty v false
       = (GasEvent.moveTo g ty v false :: s, Except.ok ())) ∧
    (∀ ov : Option V, (GasEvent.moveFrom g ty ov).outcomeFlag = some ov.isSome) ∧
    (∀ (g' : Bool) (ty' : T) (ov ov' : Option V),
       GasEvent.moveFrom g ty ov = GasEvent.moveFrom g' ty' ov'
         ↔ g = g' ∧ ty = ty' ∧ ov = ov') := by
  and_intros <;> intros <;>
    simp [TracingGasMeter, GasEvent.valDescr, GasEvent.outcomeFlag]

end MoveGas
